import Mathlib

/-!
Verification of the email-sending HTTP service (`app.py`).

Shallow embedding: the Flask request handler `send_email`, the SMTP relay
wrapper `send_email_smtp`, the config validator `validate_email_config` and
the liveness endpoint `home` are translated to pure Lean functions.

External effects are modelled as explicit inputs:
* the JSON body produced by Flask's parser is an `Option Json`
  (`none` = the body did not parse, in which case `request.get_json()`
  raises a `BadRequest` exception);
* the outcome of the SMTP transaction (which exception, if any, the
  `smtplib` calls raise) is an `SmtpOutcome`, with the 128-bit value drawn
  by `uuid.uuid4()` carried by the success constructor;
* the wall clock (`datetime.utcnow().isoformat()`) is a string parameter.

Python dynamic errors raised inside the handler (`AttributeError` from
calling `.get`/`.strip` on a non-dict/non-string, `KeyError`, the Flask
`BadRequest` from JSON parsing) are modelled by the `Except PyExc` monad;
the outer `try/except Exception` of `send_email` catches them all and
produces the 500 "Internal server error" response, exactly as in the source.
-/

/-- JSON values, as produced by Flask's JSON parser.  Numbers are modelled
as integers (no claim depends on float behaviour). -/
inductive Json where
  | null
  | bool (b : Bool)
  | num (n : Int)
  | str (s : String)
  | arr (elems : List Json)
  | obj (fields : List (String × Json))

/-- Python truthiness of a JSON-decoded value (`None`/`False`/`0`/`""`/
empty list/empty dict are falsy). -/
def Json.truthy : Json → Bool
  | .null => false
  | .bool b => b
  | .num n => n != 0
  | .str s => s != ""
  | .arr elems => !elems.isEmpty
  | .obj fields => !fields.isEmpty

/-- Exceptions that the handler body can raise; all are swallowed by the
handler's `except Exception` catch-all. -/
inductive PyExc where
  | badRequest      -- Flask BadRequest raised by request.get_json() on a malformed body
  | attributeError  -- .get on a non-dict, .strip on a non-string
  | keyError        -- data[k] with k absent
  | typeError       -- data[k] on a non-subscriptable value
deriving Repr, DecidableEq

/-- First-match lookup in a JSON object's field list (Python dict lookup;
dicts have unique keys, lists here may not, the first binding wins). -/
def lookupKey : List (String × Json) → String → Option Json
  | [], _ => none
  | (k, v) :: rest, key => if k == key then some v else lookupKey rest key

/-- `data.get(key)`: `None` (here `Json.null`) when absent, `AttributeError`
when `data` is not a dict. -/
def Json.pyGet : Json → String → Except PyExc Json
  | .obj fields, key =>
    match lookupKey fields key with
    | some v => .ok v
    | none => .ok .null
  | _, _ => .error .attributeError

/-- `data[key]`: `KeyError` when absent, `TypeError` when `data` is not a
dict. -/
def Json.pyIndex : Json → String → Except PyExc Json
  | .obj fields, key =>
    match lookupKey fields key with
    | some v => .ok v
    | none => .error .keyError
  | _, _ => .error .typeError

/-- The characters Python's `str.strip()` removes (ASCII whitespace). -/
def isSpaceChar (c : Char) : Bool :=
  c == ' ' || c == '\t' || c == '\n' || c == '\r' || c == '\x0b' || c == '\x0c'

/-- Drop the leading characters satisfying `p`. -/
def dropLeading (p : Char → Bool) : List Char → List Char
  | [] => []
  | c :: rest => if p c then dropLeading p rest else c :: rest

/-- Python `s.strip()`: remove leading and trailing whitespace. -/
def pyStrip (s : String) : String :=
  String.mk (dropLeading isSpaceChar
    ((dropLeading isSpaceChar s.data.reverse).reverse))

/-- Python `c in s` for a single character `c`. -/
def strHasChar (s : String) (c : Char) : Bool := s.data.contains c

/-- `value.strip()` where `value` came out of the JSON body:
`AttributeError` unless it is a string. -/
def pyStripJson : Json → Except PyExc String
  | .str s => .ok (pyStrip s)
  | _ => .error .attributeError

/-- Python `message.lower()` (the messages involved are ASCII). -/
def pyLower (s : String) : String := String.mk (s.data.map Char.toLower)

/-- Substring test on character lists (Python `needle in haystack`). -/
def listHasSub (needle : List Char) : List Char → Bool
  | [] => needle.isEmpty
  | c :: rest => needle.isPrefixOf (c :: rest) || listHasSub needle rest

/-- Python `needle in haystack` for strings. -/
def strContains (haystack needle : String) : Bool :=
  listHasSub needle.data haystack.data

/-- The process-wide mail credentials (after `decouple.config` defaulting:
all fields are plain strings / an integer). -/
structure EmailConfig where
  gmail_email : String
  gmail_app_password : String
  smtp_server : String
  smtp_port : Nat
deriving Repr

/-- `validate_email_config()` from `app.py`:
`if not GMAIL_EMAIL or not GMAIL_APP_PASSWORD` (falsy = empty string). -/
def validate_email_config (cfg : EmailConfig) : Bool × String :=
  if cfg.gmail_email == "" || cfg.gmail_app_password == "" then
    (false, "Email configuration missing. Please set GMAIL_EMAIL and GMAIL_APP_PASSWORD environment variables.")
  else
    (true, "OK")

/-- Hex digit as produced by Python's `%x` formatting (lowercase). -/
def hexDigit (n : Nat) : Char :=
  if n < 10 then Char.ofNat (48 + n) else Char.ofNat (87 + n)

/-- Zero-padded lowercase hex rendering of `n` to exactly `w` digits,
most significant first (Python `"%0*x"`). -/
def toHex : Nat → Nat → List Char
  | 0, _ => []
  | w + 1, n => toHex w (n / 16) ++ [hexDigit (n % 16)]

/-- `str(uuid.UUID(int=u))`: 32 hex digits in 8-4-4-4-12 groups separated
by hyphens. -/
def uuidChars (u : Nat) : List Char :=
  let h := toHex 32 u
  h.take 8 ++ '-' :: (h.drop 8).take 4 ++ '-' :: (h.drop 12).take 4
    ++ '-' :: (h.drop 16).take 4 ++ '-' :: h.drop 20

/-- The string form of a UUID whose 128-bit integer value is `u`. -/
def uuidStr (u : Nat) : String := String.mk (uuidChars u)

/-- Result triple of `send_email_smtp`:
`(success: bool, message: str, email_id: Optional[str])`. -/
structure SendResult where
  success : Bool
  message : String
  email_id : Option String
deriving Repr

/-- Which way the SMTP transaction in `send_email_smtp` went: either the
whole `with smtplib.SMTP(...)` block succeeds (and `uuid.uuid4()` draws the
128-bit value `uuid_val`), or one of the five `except` clauses fires with
the exception's string rendering `detail`. -/
inductive SmtpOutcome where
  | delivered (uuid_val : Nat)
  | authenticationError (detail : String)   -- smtplib.SMTPAuthenticationError
  | recipientsRefused (detail : String)     -- smtplib.SMTPRecipientsRefused
  | serverDisconnected (detail : String)    -- smtplib.SMTPServerDisconnected
  | smtpException (detail : String)         -- smtplib.SMTPException
  | unexpectedError (detail : String)       -- any other Exception

/-- `send_email_smtp(receiver_email, subject, body_text)` from `app.py`.
The three message arguments only feed the composed MIME message; the
returned triple depends on the transaction outcome alone. -/
def send_email_smtp (outcome : SmtpOutcome)
    (receiver_email subject body_text : String) : SendResult :=
  match outcome with
  | .delivered uuid_val =>
    ⟨true, "Email sent successfully", some (uuidStr uuid_val)⟩
  | .authenticationError detail =>
    ⟨false, "SMTP Authentication failed. Check your Gmail credentials: " ++ detail, none⟩
  | .recipientsRefused detail =>
    ⟨false, "Invalid recipient email address: " ++ detail, none⟩
  | .serverDisconnected detail =>
    ⟨false, "SMTP server connection lost: " ++ detail, none⟩
  | .smtpException detail =>
    ⟨false, "SMTP error occurred: " ++ detail, none⟩
  | .unexpectedError detail =>
    ⟨false, "Unexpected error: " ++ detail, none⟩

/-- An HTTP response: status code plus the `jsonify`-ed body. -/
structure HttpResponse where
  status : Nat
  body : Json

/-- The field of a JSON-object response body under `key`, if any. -/
def HttpResponse.bodyField (resp : HttpResponse) (key : String) : Option Json :=
  match resp.body with
  | .obj fields => lookupKey fields key
  | _ => none

/-- What the handler sees of an incoming POST request:
`request.is_json` (the Content-Type declares JSON) and the result of
Flask's JSON parser (`none` = the raw body is not parseable as JSON, in
which case `request.get_json()` raises `BadRequest`). -/
structure HttpRequest where
  is_json : Bool
  parsed_body : Option Json

/-- `required_fields` from `app.py`. -/
def required_fields : List String := ["receiver_email", "subject", "body_text"]

/-- One iteration of the required-field loop:
`not data.get(field) or not data.get(field).strip()` —
`true` means `field` is appended to `missing_fields`. -/
def fieldBad (data : Json) (field : String) : Except PyExc Bool :=
  match data.pyGet field with
  | .error e => .error e
  | .ok v =>
    if v.truthy = false then .ok true
    else
      match v with
      | .str s => .ok (pyStrip s == "")
      | _ => .error .attributeError

/-- The `for field in required_fields` loop collecting `missing_fields`,
raising out of the loop at the first dynamic error. -/
def collectMissing (data : Json) : List String → Except PyExc (List String)
  | [] => .ok []
  | f :: fs =>
    match fieldBad data f with
    | .error e => .error e
    | .ok b =>
      match collectMissing data fs with
      | .error e => .error e
      | .ok rest => .ok (if b then f :: rest else rest)

/-- `data[field].strip()` (lines 126–128 of `app.py`). -/
def getStripped (data : Json) (field : String) : Except PyExc String :=
  match data.pyIndex field with
  | .error e => .error e
  | .ok v => pyStripJson v

/-- The body of the `try:` block of the `send_email` view function,
step for step; `.error` is an exception escaping to the catch-all. -/
def send_email_inner (cfg : EmailConfig) (req : HttpRequest)
    (outcome : SmtpOutcome) (now : String) : Except PyExc HttpResponse :=
  if (validate_email_config cfg).1 = false then
    .ok ⟨500, .obj [("error", .str "Server configuration error"),
                    ("message", .str (validate_email_config cfg).2)]⟩
  else if req.is_json = false then
    .ok ⟨400, .obj [("error", .str "Content-Type must be application/json")]⟩
  else
    match req.parsed_body with
    | none => .error .badRequest
    | some data =>
      if data.truthy = false then
        .ok ⟨400, .obj [("error", .str "Request body is required")]⟩
      else
        match collectMissing data required_fields with
        | .error e => .error e
        | .ok missing_fields =>
          if missing_fields.isEmpty = false then
            .ok ⟨400, .obj [("error", .str "Missing required fields"),
                            ("missing_fields", .arr (missing_fields.map Json.str)),
                            ("required_fields", .arr (required_fields.map Json.str))]⟩
          else
            match getStripped data "receiver_email" with
            | .error e => .error e
            | .ok receiver_email =>
              match getStripped data "subject" with
              | .error e => .error e
              | .ok subject =>
                match getStripped data "body_text" with
                | .error e => .error e
                | .ok body_text =>
                  if (strHasChar receiver_email '@' && strHasChar receiver_email '.') = false then
                    .ok ⟨400, .obj [("error", .str "Invalid email format"),
                                    ("message", .str "Please provide a valid email address")]⟩
                  else
                    let r := send_email_smtp outcome receiver_email subject body_text
                    if r.success then
                      .ok ⟨200, .obj [("status", .str "success"),
                                      ("message", .str r.message),
                                      ("email_id", match r.email_id with
                                                   | some i => .str i
                                                   | none => .null),
                                      ("sent_to", .str receiver_email),
                                      ("sent_from", .str cfg.gmail_email),
                                      ("subject", .str subject),
                                      ("timestamp", .str now)]⟩
                    else
                      if strContains r.message "Authentication" then
                        .ok ⟨401, .obj [("error", .str "Authentication failed"),
                                        ("message", .str r.message)]⟩
                      else if strContains (pyLower r.message) "recipient" then
                        .ok ⟨400, .obj [("error", .str "Invalid recipient"),
                                        ("message", .str r.message)]⟩
                      else
                        .ok ⟨502, .obj [("error", .str "Email sending failed"),
                                        ("message", .str r.message)]⟩

/-- The full `send_email` view: the `try/except Exception` wrapper turning
any escaped exception into the 500 "Internal server error" response. -/
def send_email (cfg : EmailConfig) (req : HttpRequest)
    (outcome : SmtpOutcome) (now : String) : HttpResponse :=
  match send_email_inner cfg req outcome now with
  | .ok resp => resp
  | .error _ =>
    ⟨500, .obj [("error", .str "Internal server error"),
                ("message", .str "An unexpected error occurred while processing your request")]⟩

/-- The `home` view (`GET /`). -/
def home (cfg : EmailConfig) (now : String) : HttpResponse :=
  ⟨200, .obj [("service", .str "Email Sending API"),
              ("version", .str "1.0.0"),
              ("status", .str "running"),
              ("email_config_valid", .bool (validate_email_config cfg).1),
              ("timestamp", .str now)]⟩

/-- The 500 response produced by the handler's `except Exception` catch-all. -/
def internalErrorResponse : HttpResponse :=
  ⟨500, .obj [("error", .str "Internal server error"),
              ("message", .str "An unexpected error occurred while processing your request")]⟩

/-- Is the JSON value a string? -/
def Json.isStr : Json → Bool
  | .str _ => true
  | _ => false

/-- Is the JSON value an object (a Python dict)? -/
def Json.isObj : Json → Bool
  | .obj _ => true
  | _ => false

/-- The handler's loop can process the required field `f` without a
dynamic error: it is absent, or its value is a string, or its value is
falsy (then `not data.get(field)` short-circuits before `.strip()`). -/
def noTruthyNonString (fields : List (String × Json)) (f : String) : Bool :=
  match lookupKey fields f with
  | none => true
  | some v => v.isStr || !v.truthy

/-- What the loop reports missing: the required field `f` is absent, its
value is falsy (Python `not data.get(field)`), or it is a string that is
whitespace-only after trimming. -/
def absentFalsyOrBlank (fields : List (String × Json)) (f : String) : Bool :=
  match lookupKey fields f with
  | none => true
  | some (.str s) => pyStrip s == ""
  | some v => !v.truthy

/-- A configuration with both credentials present (valid). -/
def cfgOk : EmailConfig :=
  ⟨"hadibadami14@gmail.com", "app-password", "smtp.gmail.com", 587⟩

/-- A configuration with the app password unset (invalid). -/
def cfgBad : EmailConfig :=
  ⟨"hadibadami14@gmail.com", "", "smtp.gmail.com", 587⟩

/-- A well-formed request body carrying the three required fields. -/
def mkBody (receiver_email subject body_text : String) : Json :=
  .obj [("receiver_email", .str receiver_email),
        ("subject", .str subject),
        ("body_text", .str body_text)]

lemma aux_relay_phase (cfg : EmailConfig) (data : Json) (outcome : SmtpOutcome)
    (now re su bo : String)
    (hcfg : (validate_email_config cfg).1 = true)
    (hdata : data.truthy = true)
    (hmiss : collectMissing data required_fields = .ok [])
    (hre : getStripped data "receiver_email" = .ok re)
    (hsu : getStripped data "subject" = .ok su)
    (hbo : getStripped data "body_text" = .ok bo)
    (hemail : (strHasChar re '@' && strHasChar re '.') = true) :
    send_email cfg ⟨true, some data⟩ outcome now =
      if (send_email_smtp outcome re su bo).success then
        ⟨200, .obj [("status", .str "success"),
                    ("message", .str (send_email_smtp outcome re su bo).message),
                    ("email_id", match (send_email_smtp outcome re su bo).email_id with
                                 | some i => .str i
                                 | none => .null),
                    ("sent_to", .str re),
                    ("sent_from", .str cfg.gmail_email),
                    ("subject", .str su),
                    ("timestamp", .str now)]⟩
      else if strContains (send_email_smtp outcome re su bo).message "Authentication" then
        ⟨401, .obj [("error", .str "Authentication failed"),
                    ("message", .str (send_email_smtp outcome re su bo).message)]⟩
      else if strContains (pyLower (send_email_smtp outcome re su bo).message) "recipient" then
        ⟨400, .obj [("error", .str "Invalid recipient"),
                    ("message", .str (send_email_smtp outcome re su bo).message)]⟩
      else
        ⟨502, .obj [("error", .str "Email sending failed"),
                    ("message", .str (send_email_smtp outcome re su bo).message)]⟩ := by
  simp only [send_email, send_email_inner, hcfg, hdata, hmiss, hre, hsu, hbo, hemail]
  simp only [Bool.true_eq_false, if_false, List.isEmpty_nil]
  by_cases hs : (send_email_smtp outcome re su bo).success = true
  · simp [hs]
  · by_cases hA : strContains (send_email_smtp outcome re su bo).message "Authentication" = true
    · simp [hs, hA]
    · by_cases hR : strContains (pyLower (send_email_smtp outcome re su bo).message) "recipient" = true
      · simp [hs, hA, hR]
      · simp [hs, hA, hR]

/-- Claim C10: `GET /` returns 200 for every configuration state, its body's
`email_config_valid` field is the Config Validator's boolean, and that
boolean is `false` exactly when the sender address or the app password is
empty. -/
theorem home_always_200_and_reports_config (cfg : EmailConfig) (now : String) :
    (home cfg now).status = 200 ∧
    (home cfg now).bodyField "email_config_valid" =
      some (.bool (validate_email_config cfg).1) ∧
    ((validate_email_config cfg).1 = false ↔
      (cfg.gmail_email = "" ∨ cfg.gmail_app_password = "")) := by
  refine ⟨rfl, rfl, ?_⟩
  by_cases h1 : cfg.gmail_email = "" <;> by_cases h2 : cfg.gmail_app_password = "" <;>
    simp [validate_email_config, h1, h2]

/-- Claim C8: every failure outcome of the relay returns `success = false`,
a message formed from a category-naming prefix (the five prefixes are
pairwise distinct) followed by the exception detail, and no email
identifier; the identifier is present exactly on success. -/
theorem smtp_failure_taxonomy (receiver_email subject body_text detail : String)
    (uuid_val : Nat) :
    send_email_smtp (.authenticationError detail) receiver_email subject body_text =
      ⟨false, "SMTP Authentication failed. Check your Gmail credentials: " ++ detail, none⟩ ∧
    send_email_smtp (.recipientsRefused detail) receiver_email subject body_text =
      ⟨false, "Invalid recipient email address: " ++ detail, none⟩ ∧
    send_email_smtp (.serverDisconnected detail) receiver_email subject body_text =
      ⟨false, "SMTP server connection lost: " ++ detail, none⟩ ∧
    send_email_smtp (.smtpException detail) receiver_email subject body_text =
      ⟨false, "SMTP error occurred: " ++ detail, none⟩ ∧
    send_email_smtp (.unexpectedError detail) receiver_email subject body_text =
      ⟨false, "Unexpected error: " ++ detail, none⟩ ∧
    (send_email_smtp (.delivered uuid_val) receiver_email subject body_text).success = true ∧
    (send_email_smtp (.delivered uuid_val) receiver_email subject body_text).email_id =
      some (uuidStr uuid_val) ∧
    ["SMTP Authentication failed. Check your Gmail credentials: ",
     "Invalid recipient email address: ",
     "SMTP server connection lost: ",
     "SMTP error occurred: ",
     "Unexpected error: "].Nodup := by
  refine ⟨rfl, rfl, rfl, rfl, rfl, rfl, rfl, by decide⟩

/-- Claim C7: when the relay reports success, the response is 200 and its
body is exactly the seven-key object with status "success", the relay's
message, the generated email id, the trimmed recipient, the configured
sender, the trimmed subject and the formatted current UTC timestamp. -/
theorem success_response_shape (cfg : EmailConfig) (data : Json)
    (uuid_val : Nat) (now re su bo : String)
    (hcfg : (validate_email_config cfg).1 = true)
    (hdata : data.truthy = true)
    (hmiss : collectMissing data required_fields = .ok [])
    (hre : getStripped data "receiver_email" = .ok re)
    (hsu : getStripped data "subject" = .ok su)
    (hbo : getStripped data "body_text" = .ok bo)
    (hemail : (strHasChar re '@' && strHasChar re '.') = true) :
    send_email cfg ⟨true, some data⟩ (.delivered uuid_val) now =
      ⟨200, .obj [("status", .str "success"),
                  ("message", .str "Email sent successfully"),
                  ("email_id", .str (uuidStr uuid_val)),
                  ("sent_to", .str re),
                  ("sent_from", .str cfg.gmail_email),
                  ("subject", .str su),
                  ("timestamp", .str now)]⟩ := by
  rw [aux_relay_phase cfg data (.delivered uuid_val) now re su bo
        hcfg hdata hmiss hre hsu hbo hemail]
  simp [send_email_smtp]

/-- Witness for C7 at a concrete valid request and a delivered outcome. -/
theorem success_response_shape_witness :
    send_email cfgOk ⟨true, some (mkBody "user@example.com" "Hi" "Hello")⟩
        (.delivered 5) "2026-01-01T00:00:00" =
      ⟨200, .obj [("status", .str "success"),
                  ("message", .str "Email sent successfully"),
                  ("email_id", .str (uuidStr 5)),
                  ("sent_to", .str "user@example.com"),
                  ("sent_from", .str "hadibadami14@gmail.com"),
                  ("subject", .str "Hi"),
                  ("timestamp", .str "2026-01-01T00:00:00")]⟩ :=
  success_response_shape cfgOk (mkBody "user@example.com" "Hi" "Hello") 5
    "2026-01-01T00:00:00" "user@example.com" "Hi" "Hello"
    rfl rfl rfl rfl rfl rfl rfl

/-- Claim C6: a request that passes the required-field check but whose
trimmed receiver_email lacks an "@" or a "." is answered 400 with error
"Invalid email format" and a human-readable message. -/
theorem invalid_email_format_rejected (cfg : EmailConfig) (data : Json)
    (outcome : SmtpOutcome) (now re su bo : String)
    (hcfg : (validate_email_config cfg).1 = true)
    (hdata : data.truthy = true)
    (hmiss : collectMissing data required_fields = .ok [])
    (hre : getStripped data "receiver_email" = .ok re)
    (hsu : getStripped data "subject" = .ok su)
    (hbo : getStripped data "body_text" = .ok bo)
    (hemail : (strHasChar re '@' && strHasChar re '.') = false) :
    send_email cfg ⟨true, some data⟩ outcome now =
      ⟨400, .obj [("error", .str "Invalid email format"),
                  ("message", .str "Please provide a valid email address")]⟩ := by
  simp only [send_email, send_email_inner, hcfg, hdata, hmiss, hre, hsu, hbo, hemail]
  simp

/-- Witness for C6 at receiver_email = "not-an-email", which contains
neither an "@" nor a ".". -/
theorem invalid_email_format_rejected_witness :
    send_email cfgOk ⟨true, some (mkBody "not-an-email" "Hi" "Hello")⟩
        (.unexpectedError "boom") "2026-01-01T00:00:00" =
      ⟨400, .obj [("error", .str "Invalid email format"),
                  ("message", .str "Please provide a valid email address")]⟩ :=
  invalid_email_format_rejected cfgOk (mkBody "not-an-email" "Hi" "Hello")
    (.unexpectedError "boom") "2026-01-01T00:00:00" "not-an-email" "Hi" "Hello"
    rfl rfl rfl rfl rfl rfl rfl

/-- Claim C1: for every relay failure reaching the handler, the status code
is chosen by inspecting the relay's message: containing "Authentication"
gives 401 with error "Authentication failed"; otherwise containing
"recipient" case-insensitively gives 400 with error "Invalid recipient";
otherwise 502 with error "Email sending failed"; in each case the body
carries the relay's message. -/
theorem relay_failure_status_selection (cfg : EmailConfig) (data : Json)
    (outcome : SmtpOutcome) (now re su bo : String)
    (hcfg : (validate_email_config cfg).1 = true)
    (hdata : data.truthy = true)
    (hmiss : collectMissing data required_fields = .ok [])
    (hre : getStripped data "receiver_email" = .ok re)
    (hsu : getStripped data "subject" = .ok su)
    (hbo : getStripped data "body_text" = .ok bo)
    (hemail : (strHasChar re '@' && strHasChar re '.') = true)
    (hfail : (send_email_smtp outcome re su bo).success = false) :
    (strContains (send_email_smtp outcome re su bo).message "Authentication" = true →
      send_email cfg ⟨true, some data⟩ outcome now =
        ⟨401, .obj [("error", .str "Authentication failed"),
                    ("message", .str (send_email_smtp outcome re su bo).message)]⟩) ∧
    (strContains (send_email_smtp outcome re su bo).message "Authentication" = false →
     strContains (pyLower (send_email_smtp outcome re su bo).message) "recipient" = true →
      send_email cfg ⟨true, some data⟩ outcome now =
        ⟨400, .obj [("error", .str "Invalid recipient"),
                    ("message", .str (send_email_smtp outcome re su bo).message)]⟩) ∧
    (strContains (send_email_smtp outcome re su bo).message "Authentication" = false →
     strContains (pyLower (send_email_smtp outcome re su bo).message) "recipient" = false →
      send_email cfg ⟨true, some data⟩ outcome now =
        ⟨502, .obj [("error", .str "Email sending failed"),
                    ("message", .str (send_email_smtp outcome re su bo).message)]⟩) := by
  rw [aux_relay_phase cfg data outcome now re su bo hcfg hdata hmiss hre hsu hbo hemail]
  refine ⟨fun h1 => ?_, fun h1 h2 => ?_, fun h1 h2 => ?_⟩ <;> simp [hfail, h1]
  · simp [*]
  · simp [*]

/-- Witness for C1: an authentication failure at a concrete valid request
is answered 401 with the relay's message in the body. -/
theorem relay_failure_status_selection_witness :
    send_email cfgOk ⟨true, some (mkBody "user@example.com" "Hi" "Hello")⟩
        (.authenticationError "bad credentials") "2026-01-01T00:00:00" =
      ⟨401, .obj [("error", .str "Authentication failed"),
                  ("message", .str "SMTP Authentication failed. Check your Gmail credentials: bad credentials")]⟩ :=
  (relay_failure_status_selection cfgOk (mkBody "user@example.com" "Hi" "Hello")
    (.authenticationError "bad credentials") "2026-01-01T00:00:00"
    "user@example.com" "Hi" "Hello"
    rfl rfl rfl rfl rfl rfl rfl rfl).1 rfl

/-- Counterexample to claim C2 as stated: with valid configuration, a POST
whose Content-Type declares JSON but whose body does not parse is answered
500 (the `BadRequest` raised by `request.get_json()` is an `Exception`, so
the handler's catch-all swallows it), not 400. -/
theorem malformed_json_counterexample :
    (send_email cfgOk ⟨true, none⟩ (.unexpectedError "x") "2026-01-01T00:00:00").status = 500 ∧
    (send_email cfgOk ⟨true, none⟩ (.unexpectedError "x") "2026-01-01T00:00:00").status ≠ 400 := by
  exact ⟨rfl, by decide⟩

/-- Claim C2 amended: for every POST /send-email request whose Content-Type
declares JSON but whose body is not parseable as JSON (and with valid
configuration, so the parse is reached), the handler responds 500 with the
catch-all "Internal server error" body, never 400. -/
theorem malformed_json_yields_500 (cfg : EmailConfig) (outcome : SmtpOutcome)
    (now : String)
    (hcfg : (validate_email_config cfg).1 = true) :
    send_email cfg ⟨true, none⟩ outcome now = internalErrorResponse := by
  simp [send_email, send_email_inner, hcfg, internalErrorResponse]

/-- Witness for the amended C2 at a concrete configuration. -/
theorem malformed_json_yields_500_witness :
    send_email cfgOk ⟨true, none⟩ (.delivered 0) "2026-01-01T00:00:00" =
      internalErrorResponse :=
  malformed_json_yields_500 cfgOk (.delivered 0) "2026-01-01T00:00:00" rfl

lemma pyStrip_empty : pyStrip "" = "" := rfl

lemma aux_fieldBad_no_truthy_nonstring (fields : List (String × Json))
    (f : String) (h : noTruthyNonString fields f = true) :
    fieldBad (.obj fields) f = .ok (absentFalsyOrBlank fields f) := by
  unfold noTruthyNonString at h
  unfold fieldBad Json.pyGet absentFalsyOrBlank
  cases hl : lookupKey fields f with
  | none => simp [hl, Json.truthy]
  | some v =>
    rw [hl] at h
    cases v with
    | str s =>
      by_cases hs : s = ""
      · subst hs
        simp [hl, Json.truthy, pyStrip_empty]
      · simp [hl, Json.truthy, hs]
    | null => simp [hl, Json.truthy]
    | bool b =>
      cases b with
      | false => simp [hl, Json.truthy]
      | true => simp [Json.isStr, Json.truthy] at h
    | num n =>
      by_cases hn : n = 0
      · subst hn
        simp [hl, Json.truthy]
      · simp [Json.isStr, Json.truthy, hn] at h
    | arr elems =>
      cases elems with
      | nil => simp [hl, Json.truthy]
      | cons a l => simp [Json.isStr, Json.truthy] at h
    | obj kvs =>
      cases kvs with
      | nil => simp [hl, Json.truthy]
      | cons a l => simp [Json.isStr, Json.truthy] at h

lemma aux_collectMissing_no_truthy_nonstring (fields : List (String × Json))
    (fs : List String) (h : fs.all (noTruthyNonString fields) = true) :
    collectMissing (.obj fields) fs = .ok (fs.filter (absentFalsyOrBlank fields)) := by
  induction fs with
  | nil => rfl
  | cons f rest ih =>
    rw [List.all_cons, Bool.and_eq_true] at h
    rw [List.filter_cons]
    simp only [collectMissing, aux_fieldBad_no_truthy_nonstring fields f h.1, ih h.2]

/-- Counterexample to claim C3 as stated: the body `{"subject": 1}` has
receiver_email and body_text absent, yet the response is 500 (the loop calls
`.strip()` on the integer subject and the AttributeError reaches the
catch-all), not 400 with "Missing required fields". -/
theorem missing_fields_counterexample :
    (send_email cfgOk ⟨true, some (.obj [("subject", Json.num 1)])⟩
        (.unexpectedError "x") "2026-01-01T00:00:00").status = 500 ∧
    (send_email cfgOk ⟨true, some (.obj [("subject", Json.num 1)])⟩
        (.unexpectedError "x") "2026-01-01T00:00:00").status ≠ 400 ∧
    (send_email cfgOk ⟨true, some (.obj [("subject", Json.num 1)])⟩
        (.unexpectedError "x") "2026-01-01T00:00:00").bodyField "error" =
      some (.str "Internal server error") := by
  exact ⟨rfl, by decide, rfl⟩

/-- Claim C3 amended: for every request whose body is a non-empty JSON
object in which no required field holds a truthy non-string value, if one
or more of receiver_email, subject, body_text is absent, falsy, or
whitespace-only after trimming, the response is 400 with error
"Missing required fields", and missing_fields lists exactly the
absent-falsy-or-blank fields (all of them together, no more, no fewer),
alongside the full required_fields list. -/
theorem missing_fields_reported_exactly (cfg : EmailConfig)
    (fields : List (String × Json)) (outcome : SmtpOutcome) (now : String)
    (hcfg : (validate_email_config cfg).1 = true)
    (hne : fields.isEmpty = false)
    (hstr : required_fields.all (noTruthyNonString fields) = true)
    (hmiss : required_fields.filter (absentFalsyOrBlank fields) ≠ []) :
    send_email cfg ⟨true, some (.obj fields)⟩ outcome now =
      ⟨400, .obj [("error", .str "Missing required fields"),
                  ("missing_fields",
                    .arr ((required_fields.filter (absentFalsyOrBlank fields)).map Json.str)),
                  ("required_fields", .arr (required_fields.map Json.str))]⟩ := by
  have hc := aux_collectMissing_no_truthy_nonstring fields required_fields hstr
  have htr : (Json.obj fields).truthy = true := by simp [Json.truthy, hne]
  have hie : (required_fields.filter (absentFalsyOrBlank fields)).isEmpty = false := by
    cases hm : required_fields.filter (absentFalsyOrBlank fields) with
    | nil => exact absurd hm hmiss
    | cons a l => simp
  simp only [send_email, send_email_inner, hcfg, htr, hc, hie]
  simp

/-- Witness for the amended C3 at a body with a falsy receiver_email (the
number 0), a blank subject and a good body_text: exactly receiver_email
and subject are listed missing. -/
theorem missing_fields_reported_exactly_witness :
    send_email cfgOk ⟨true, some (.obj [("receiver_email", Json.num 0),
        ("subject", Json.str " "), ("body_text", Json.str "b")])⟩
        (.unexpectedError "boom") "2026-01-01T00:00:00" =
      ⟨400, .obj [("error", .str "Missing required fields"),
                  ("missing_fields", .arr [.str "receiver_email", .str "subject"]),
                  ("required_fields",
                    .arr [.str "receiver_email", .str "subject", .str "body_text"])]⟩ :=
  missing_fields_reported_exactly cfgOk
    [("receiver_email", Json.num 0), ("subject", Json.str " "),
     ("body_text", Json.str "b")]
    (.unexpectedError "boom") "2026-01-01T00:00:00" rfl rfl rfl (by decide)

lemma aux_fieldBad_error_of_nonstring (fields : List (String × Json))
    (f : String) (v : Json) (hl : lookupKey fields f = some v)
    (ht : v.truthy = true) (hs : v.isStr = false) :
    fieldBad (.obj fields) f = .error .attributeError := by
  unfold fieldBad
  rw [show Json.pyGet (.obj fields) f = .ok v by simp [Json.pyGet, hl]]
  cases v <;> simp_all [Json.isStr, Json.truthy]

lemma aux_collectMissing_error (data : Json) (fs : List String) (f : String)
    (e : PyExc) (hf : f ∈ fs) (he : fieldBad data f = .error e) :
    ∃ e', collectMissing data fs = .error e' := by
  induction fs with
  | nil => cases hf
  | cons g gs ih =>
    rcases List.mem_cons.mp hf with hg | hg
    · subst hg
      exact ⟨e, by simp [collectMissing, he]⟩
    · cases hb : fieldBad data g with
      | error e'' => exact ⟨e'', by simp [collectMissing, hb]⟩
      | ok b =>
        obtain ⟨e', h'⟩ := ih hg
        exact ⟨e', by simp [collectMissing, hb, h']⟩

lemma aux_lookup_ne_nil (fields : List (String × Json)) (f : String) (v : Json)
    (hl : lookupKey fields f = some v) : fields.isEmpty = false := by
  cases fields with
  | nil => simp [lookupKey] at hl
  | cons p rest => simp

/-- Counterexample to claim C5 as stated: the body
`{"receiver_email": 0, "subject": "s", "body_text": "b"}` has a required
field present with a non-string value (the number 0), yet the handler
answers 400 "Missing required fields" (0 is falsy, so the loop reports the
field missing), not 500. -/
theorem falsy_nonstring_field_counterexample :
    (send_email cfgOk ⟨true, some (.obj [("receiver_email", Json.num 0),
        ("subject", Json.str "s"), ("body_text", Json.str "b")])⟩
        (.unexpectedError "x") "2026-01-01T00:00:00").status = 400 ∧
    (send_email cfgOk ⟨true, some (.obj [("receiver_email", Json.num 0),
        ("subject", Json.str "s"), ("body_text", Json.str "b")])⟩
        (.unexpectedError "x") "2026-01-01T00:00:00").status ≠ 500 ∧
    (send_email cfgOk ⟨true, some (.obj [("receiver_email", Json.num 0),
        ("subject", Json.str "s"), ("body_text", Json.str "b")])⟩
        (.unexpectedError "x") "2026-01-01T00:00:00").bodyField "error" =
      some (.str "Missing required fields") := by
  exact ⟨rfl, by decide, rfl⟩

/-- Claim C5 amended: with valid configuration, a JSON body that is a truthy
non-object, or a JSON-object body in which some required field holds a
truthy non-string value, is answered 500 "Internal server error" via the
catch-all, not a 400 validation error.  (Falsy non-string values — 0,
false, null — are instead reported as missing fields with 400.) -/
theorem type_violation_internal_error (cfg : EmailConfig)
    (outcome : SmtpOutcome) (now : String)
    (hcfg : (validate_email_config cfg).1 = true) :
    (∀ data : Json, data.truthy = true → data.isObj = false →
      send_email cfg ⟨true, some data⟩ outcome now = internalErrorResponse) ∧
    (∀ (fields : List (String × Json)) (f : String) (v : Json),
      f ∈ required_fields → lookupKey fields f = some v →
      v.truthy = true → v.isStr = false →
      send_email cfg ⟨true, some (.obj fields)⟩ outcome now = internalErrorResponse) := by
  constructor
  · intro data hdata hobj
    cases data <;>
      simp_all [send_email, send_email_inner, hcfg, collectMissing, fieldBad,
        Json.pyGet, required_fields, Json.isObj, Json.truthy, internalErrorResponse]
  · intro fields f v hf hl ht hs
    have hbad := aux_fieldBad_error_of_nonstring fields f v hl ht hs
    obtain ⟨e', hc⟩ := aux_collectMissing_error (.obj fields) required_fields f
      .attributeError hf hbad
    have htr : (Json.obj fields).truthy = true := by
      simp [Json.truthy, aux_lookup_ne_nil fields f v hl]
    simp only [send_email, send_email_inner, hcfg, htr, hc]
    simp [internalErrorResponse]

/-- Witness for the amended C5: a truthy non-object body (a non-empty
array) is answered 500. -/
theorem type_violation_internal_error_witness :
    send_email cfgOk ⟨true, some (.arr [Json.num 1])⟩ (.unexpectedError "x")
        "2026-01-01T00:00:00" = internalErrorResponse :=
  (type_violation_internal_error cfgOk (.unexpectedError "x")
    "2026-01-01T00:00:00" rfl).1 (.arr [Json.num 1]) rfl rfl

/-- Claim C4: the handler's checks run in the fixed order config (500),
Content-Type (400), body presence (400), required fields (400), email
format (400), then the relay call, short-circuiting at the first failure:
each failing step yields its fixed error response, unchanged under any
relay outcome (the relay is never consulted), and only when every check
passes does the response carry the relay's message. -/
theorem validation_short_circuit (cfg : EmailConfig) (req : HttpRequest)
    (outcome outcome' : SmtpOutcome) (now : String) :
    ((validate_email_config cfg).1 = false →
      send_email cfg req outcome now =
        ⟨500, .obj [("error", .str "Server configuration error"),
                    ("message", .str (validate_email_config cfg).2)]⟩ ∧
      send_email cfg req outcome now = send_email cfg req outcome' now) ∧
    ((validate_email_config cfg).1 = true → req.is_json = false →
      send_email cfg req outcome now =
        ⟨400, .obj [("error", .str "Content-Type must be application/json")]⟩ ∧
      send_email cfg req outcome now = send_email cfg req outcome' now) ∧
    (∀ data, (validate_email_config cfg).1 = true → req.is_json = true →
      req.parsed_body = some data → data.truthy = false →
      send_email cfg req outcome now =
        ⟨400, .obj [("error", .str "Request body is required")]⟩ ∧
      send_email cfg req outcome now = send_email cfg req outcome' now) ∧
    (∀ data missing, (validate_email_config cfg).1 = true → req.is_json = true →
      req.parsed_body = some data → data.truthy = true →
      collectMissing data required_fields = .ok missing → missing ≠ [] →
      send_email cfg req outcome now =
        ⟨400, .obj [("error", .str "Missing required fields"),
                    ("missing_fields", .arr (missing.map Json.str)),
                    ("required_fields", .arr (required_fields.map Json.str))]⟩ ∧
      send_email cfg req outcome now = send_email cfg req outcome' now) ∧
    (∀ data re su bo, (validate_email_config cfg).1 = true → req.is_json = true →
      req.parsed_body = some data → data.truthy = true →
      collectMissing data required_fields = .ok [] →
      getStripped data "receiver_email" = .ok re →
      getStripped data "subject" = .ok su →
      getStripped data "body_text" = .ok bo →
      (strHasChar re '@' && strHasChar re '.') = false →
      send_email cfg req outcome now =
        ⟨400, .obj [("error", .str "Invalid email format"),
                    ("message", .str "Please provide a valid email address")]⟩ ∧
      send_email cfg req outcome now = send_email cfg req outcome' now) ∧
    (∀ data re su bo, (validate_email_config cfg).1 = true → req.is_json = true →
      req.parsed_body = some data → data.truthy = true →
      collectMissing data required_fields = .ok [] →
      getStripped data "receiver_email" = .ok re →
      getStripped data "subject" = .ok su →
      getStripped data "body_text" = .ok bo →
      (strHasChar re '@' && strHasChar re '.') = true →
      (send_email cfg req outcome now).bodyField "message" =
        some (.str (send_email_smtp outcome re su bo).message)) := by
  obtain ⟨ij, pb⟩ := req
  refine ⟨?_, ?_, ?_, ?_, ?_, ?_⟩
  · intro h
    constructor <;> simp [send_email, send_email_inner, h]
  · intro hv hj
    simp only at hj
    subst hj
    constructor <;> simp [send_email, send_email_inner, hv]
  · intro data hv hj hp ht
    simp only at hj hp
    subst hj; subst hp
    constructor <;> simp [send_email, send_email_inner, hv, ht]
  · intro data missing hv hj hp ht hm hne
    simp only at hj hp
    subst hj; subst hp
    have hie : missing.isEmpty = false := by
      cases missing with
      | nil => exact absurd rfl hne
      | cons a l => simp
    constructor <;> simp [send_email, send_email_inner, hv, ht, hm, hie]
  · intro data re su bo hv hj hp ht hm hre hsu hbo hemail
    simp only at hj hp
    subst hj; subst hp
    constructor <;>
      simp [send_email, send_email_inner, hv, ht, hm, hre, hsu, hbo, hemail]
  · intro data re su bo hv hj hp ht hm hre hsu hbo hemail
    simp only at hj hp
    subst hj; subst hp
    rw [aux_relay_phase cfg data outcome now re su bo hv ht hm hre hsu hbo hemail]
    by_cases hs : (send_email_smtp outcome re su bo).success = true
    · simp [hs, HttpResponse.bodyField, lookupKey]
    · by_cases hA : strContains (send_email_smtp outcome re su bo).message "Authentication" = true
      · simp [hs, hA, HttpResponse.bodyField, lookupKey]
      · by_cases hR : strContains (pyLower (send_email_smtp outcome re su bo).message) "recipient" = true
        · simp [hs, hA, hR, HttpResponse.bodyField, lookupKey]
        · simp [hs, hA, hR, HttpResponse.bodyField, lookupKey]

/-- Witness for C4: with the app password unset, the handler answers the
500 configuration error and the response is independent of the relay
outcome. -/
theorem validation_short_circuit_witness :
    send_email cfgBad ⟨true, some (mkBody "user@example.com" "Hi" "Hello")⟩
        (.delivered 3) "2026-01-01T00:00:00" =
      ⟨500, .obj [("error", .str "Server configuration error"),
                  ("message", .str "Email configuration missing. Please set GMAIL_EMAIL and GMAIL_APP_PASSWORD environment variables.")]⟩ ∧
    send_email cfgBad ⟨true, some (mkBody "user@example.com" "Hi" "Hello")⟩
        (.delivered 3) "2026-01-01T00:00:00" =
      send_email cfgBad ⟨true, some (mkBody "user@example.com" "Hi" "Hello")⟩
        (.unexpectedError "x") "2026-01-01T00:00:00" :=
  (validation_short_circuit cfgBad
    ⟨true, some (mkBody "user@example.com" "Hi" "Hello")⟩
    (.delivered 3) (.unexpectedError "x") "2026-01-01T00:00:00").1 rfl

lemma aux_hexDigit_ne_dash : ∀ m < 16, hexDigit m ≠ '-' := by decide

lemma aux_hexDigit_inj : ∀ a < 16, ∀ b < 16, hexDigit a = hexDigit b → a = b := by
  decide

lemma aux_toHex_length (w : Nat) : ∀ n, (toHex w n).length = w := by
  induction w with
  | zero => intro n; rfl
  | succ w ih => intro n; simp [toHex, ih]

lemma aux_toHex_ne_dash (w : Nat) : ∀ n, ∀ c ∈ toHex w n, c ≠ '-' := by
  induction w with
  | zero => intro n c hc; simp [toHex] at hc
  | succ w ih =>
    intro n c hc
    simp only [toHex, List.mem_append, List.mem_singleton] at hc
    rcases hc with h | h
    · exact ih _ c h
    · subst h
      exact aux_hexDigit_ne_dash _ (Nat.mod_lt _ (by norm_num))

lemma aux_toHex_inj (w : Nat) : ∀ a b, a < 16 ^ w → b < 16 ^ w →
    toHex w a = toHex w b → a = b := by
  induction w with
  | zero =>
    intro a b ha hb _
    simp [Nat.lt_one_iff] at ha hb
    omega
  | succ w ih =>
    intro a b ha hb h
    simp only [toHex] at h
    have hlen : (toHex w (a / 16)).length = (toHex w (b / 16)).length := by
      rw [aux_toHex_length, aux_toHex_length]
    obtain ⟨h1, h2⟩ := List.append_inj h hlen
    have hd : hexDigit (a % 16) = hexDigit (b % 16) := by simpa using h2
    have hmod : a % 16 = b % 16 :=
      aux_hexDigit_inj _ (Nat.mod_lt _ (by norm_num)) _
        (Nat.mod_lt _ (by norm_num)) hd
    rw [pow_succ] at ha hb
    have hax : a / 16 < 16 ^ w := Nat.div_lt_of_lt_mul (by omega)
    have hbx : b / 16 < 16 ^ w := Nat.div_lt_of_lt_mul (by omega)
    have hdiv : a / 16 = b / 16 := ih _ _ hax hbx h1
    omega

lemma aux_parts_assemble (h : List Char) :
    h.take 8 ++ ((h.drop 8).take 4 ++ ((h.drop 12).take 4 ++
      ((h.drop 16).take 4 ++ h.drop 20))) = h := by
  have e20 : h.drop 20 = (h.drop 16).drop 4 := by
    rw [List.drop_drop]
  have e16 : h.drop 16 = (h.drop 12).drop 4 := by
    rw [List.drop_drop]
  have e12 : h.drop 12 = (h.drop 8).drop 4 := by
    rw [List.drop_drop]
  rw [e20, List.take_append_drop, e16, List.take_append_drop, e12,
    List.take_append_drop, List.take_append_drop]

lemma aux_filter_uuidChars (u : Nat) :
    (uuidChars u).filter (fun c => !(c == '-')) = toHex 32 u := by
  have hmem : ∀ c ∈ toHex 32 u, (!(c == '-')) = true := by
    intro c hc
    simp [aux_toHex_ne_dash 32 u c hc]
  have hsub : ∀ l : List Char, (∀ c ∈ l, c ∈ toHex 32 u) →
      l.filter (fun c => !(c == '-')) = l := by
    intro l hl
    exact List.filter_eq_self.mpr fun a ha => hmem a (hl a ha)
  unfold uuidChars
  simp only [List.filter_append, List.filter_cons]
  norm_num
  rw [hsub _ (fun c hc => List.mem_of_mem_take hc),
      hsub _ (fun c hc => List.mem_of_mem_drop (List.mem_of_mem_take hc)),
      hsub _ (fun c hc => List.mem_of_mem_drop (List.mem_of_mem_take hc)),
      hsub _ (fun c hc => List.mem_of_mem_drop (List.mem_of_mem_take hc)),
      hsub _ (fun c hc => List.mem_of_mem_drop hc)]
  exact aux_parts_assemble (toHex 32 u)

lemma uuidStr_injective (u1 u2 : Nat) (h1 : u1 < 2 ^ 128) (h2 : u2 < 2 ^ 128)
    (h : uuidStr u1 = uuidStr u2) : u1 = u2 := by
  have hch : uuidChars u1 = uuidChars u2 := by
    have := congrArg String.data h
    simpa [uuidStr] using this
  have hfil := congrArg (List.filter (fun c => !(c == '-'))) hch
  rw [aux_filter_uuidChars, aux_filter_uuidChars] at hfil
  have h16 : (16 : Nat) ^ 32 = 2 ^ 128 := by norm_num
  exact aux_toHex_inj 32 u1 u2 (h16.symm ▸ h1) (h16.symm ▸ h2) hfil

lemma uuidStr_ne_empty (u : Nat) : uuidStr u ≠ "" := by
  intro h
  have he : ("" : String) = String.mk [] := rfl
  rw [uuidStr, he] at h
  injection h with h2
  simp [uuidChars] at h2

/-- Claim C9: for a valid request, a successful relay yields 200 with a
non-empty email_id, and two sends of the identical input whose UUID draws
differ (uuid4 is a fresh 128-bit random value, not derived from message
content) produce distinct email_id values. -/
theorem email_id_fresh_and_distinct (cfg : EmailConfig) (data : Json)
    (now re su bo : String) (u1 u2 : Nat)
    (hcfg : (validate_email_config cfg).1 = true)
    (hdata : data.truthy = true)
    (hmiss : collectMissing data required_fields = .ok [])
    (hre : getStripped data "receiver_email" = .ok re)
    (hsu : getStripped data "subject" = .ok su)
    (hbo : getStripped data "body_text" = .ok bo)
    (hemail : (strHasChar re '@' && strHasChar re '.') = true)
    (hu1 : u1 < 2 ^ 128) (hu2 : u2 < 2 ^ 128) (hne : u1 ≠ u2) :
    (send_email cfg ⟨true, some data⟩ (.delivered u1) now).status = 200 ∧
    (send_email cfg ⟨true, some data⟩ (.delivered u2) now).status = 200 ∧
    (send_email cfg ⟨true, some data⟩ (.delivered u1) now).bodyField "email_id" =
      some (.str (uuidStr u1)) ∧
    (send_email cfg ⟨true, some data⟩ (.delivered u2) now).bodyField "email_id" =
      some (.str (uuidStr u2)) ∧
    uuidStr u1 ≠ "" ∧ uuidStr u2 ≠ "" ∧ uuidStr u1 ≠ uuidStr u2 := by
  have e1 := aux_relay_phase cfg data (.delivered u1) now re su bo
    hcfg hdata hmiss hre hsu hbo hemail
  have e2 := aux_relay_phase cfg data (.delivered u2) now re su bo
    hcfg hdata hmiss hre hsu hbo hemail
  refine ⟨?_, ?_, ?_, ?_, uuidStr_ne_empty u1, uuidStr_ne_empty u2,
    fun hh => hne (uuidStr_injective u1 u2 hu1 hu2 hh)⟩ <;>
    simp [e1, e2, send_email_smtp, HttpResponse.bodyField, lookupKey]

/-- Witness for C9 at the distinct UUID draws 0 and 1. -/
theorem email_id_fresh_and_distinct_witness :
    (send_email cfgOk ⟨true, some (mkBody "user@example.com" "Hi" "Hello")⟩
        (.delivered 0) "2026-01-01T00:00:00").status = 200 ∧
    uuidStr 0 ≠ uuidStr 1 := by
  have h := email_id_fresh_and_distinct cfgOk
    (mkBody "user@example.com" "Hi" "Hello") "2026-01-01T00:00:00"
    "user@example.com" "Hi" "Hello" 0 1
    rfl rfl rfl rfl rfl rfl rfl (by norm_num) (by norm_num) (by decide)
  exact ⟨h.1, h.2.2.2.2.2.2⟩
